import Mathlib

/-!
Verification development for the Docubot repository.

Shallow embedding of:
- the agent workflow state machine (src/agents/workflow.py, class AgentWorkflow),
- the hybrid retrieval fusion (src/query_processor.py, class EnhancedHybridRetriever),
- the draft generator (src/agents/research_agent.py, class ResearchAgent).

Modelling conventions:
- External LLM-backed collaborators (RelevanceChecker, VerificationAgent, the
  Groq chat model) perform network calls; their outputs are supplied as
  parameters (an environment of response functions), exactly at the boundary
  where the Python code receives their return values.
- A langchain Document is modelled by its page_content together with the
  metadata source field; these are the only fields the verified code reads.
- Python hash(...) of a string is modelled injectively by the string itself
  (hash collisions are abstracted away).
- A retriever that raises an exception is modelled as returning Option.none.
-/

namespace Docubot

/-- Document model: page_content plus the metadata source entry. -/
structure Doc where
  page_content : String
  source : String
deriving DecidableEq

/-- Substring helper: does the pattern occur as a leading segment of the text?
Models the start of Python substring search. -/
def prefixMatch : List Char → List Char → Bool
  | [], _ => true
  | _ :: _, [] => false
  | p :: ps, c :: cs => p == c && prefixMatch ps cs

/-- Substring occurrence: models the Python expression `pat in s` on strings. -/
def containsSeq : List Char → List Char → Bool
  | [], pat => prefixMatch pat []
  | c :: t, pat => prefixMatch pat (c :: t) || containsSeq t pat

/-- String-level substring containment, models Python `pat in s`. -/
def strContains (s pat : String) : Bool :=
  containsSeq s.toList pat.toList

-- ---------------------------------------------------------------------------
-- Agent workflow state machine (src/agents/workflow.py)
-- ---------------------------------------------------------------------------

/-- AgentState of workflow.py (question, documents, draft_answer,
verification_report, is_relevant), extended with two instrumentation counters
that record how often the research and verify nodes have executed.
The retriever and retrieval_scores fields are modelled outside the state
(the retriever is only read by the relevance checker, an external agent). -/
structure AgentState where
  question : String
  documents : List Doc
  draft_answer : String
  verification_report : String
  is_relevant : Bool
  researchCalls : Nat
  verifyCalls : Nat
deriving DecidableEq

/-- Environment of external agent responses for one pipeline run:
the relevance classification string returned by RelevanceChecker.check,
the draft text returned by the n-th call of ResearchAgent.generate, and the
report text returned by the n-th call of VerificationAgent.check. -/
structure AgentEnv where
  classify : String
  draftOf : Nat → String
  reportOf : Nat → String

/-- The fixed fallback answer set by _check_relevance_step on an irrelevant
question. -/
def fallbackText : String :=
  "This question is not related to the uploaded document(s), or there is insufficient information to answer it."

/-- AgentWorkflow._check_relevance_step. -/
def checkRelevanceStep (env : AgentEnv) (s : AgentState) : AgentState :=
  if env.classify = "CAN_ANSWER" ∨ env.classify = "PARTIAL" then
    { s with is_relevant := true }
  else
    { s with is_relevant := false, draft_answer := fallbackText }

/-- AgentWorkflow._decide_after_relevance_check: true means the edge labelled
relevant (to the research node), false means irrelevant (to END). -/
def decideAfterRelevanceCheck (s : AgentState) : Bool :=
  s.is_relevant

/-- AgentWorkflow._research_step: calls ResearchAgent.generate on the state
documents and stores the returned draft_answer. -/
def researchStep (env : AgentEnv) (s : AgentState) : AgentState :=
  { s with draft_answer := env.draftOf s.researchCalls,
           researchCalls := s.researchCalls + 1 }

/-- AgentWorkflow._verification_step: calls VerificationAgent.check and stores
the returned verification_report. -/
def verificationStep (env : AgentEnv) (s : AgentState) : AgentState :=
  { s with verification_report := env.reportOf s.verifyCalls,
           verifyCalls := s.verifyCalls + 1 }

/-- AgentWorkflow._decide_next_step: true means re_research (loop back to the
research node), false means end. -/
def decideNextStep (s : AgentState) : Bool :=
  strContains s.verification_report "Supported: NO"
    || strContains s.verification_report "Relevant: NO"

/-- Nodes of the compiled LangGraph workflow built by build_workflow, plus the
terminal END. -/
inductive Node where
  | checkRelevance
  | research
  | verify
  | done
deriving DecidableEq

/-- One step of the compiled workflow: execute the current node on the state,
then follow the (conditional) edge chosen by the decision functions, exactly
as wired in AgentWorkflow.build_workflow. -/
def stepWorkflow (env : AgentEnv) : Node × AgentState → Node × AgentState
  | (Node.checkRelevance, s) =>
    let s2 := checkRelevanceStep env s
    (if decideAfterRelevanceCheck s2 then Node.research else Node.done, s2)
  | (Node.research, s) => (Node.verify, researchStep env s)
  | (Node.verify, s) =>
    let s2 := verificationStep env s
    (if decideNextStep s2 then Node.research else Node.done, s2)
  | (Node.done, s) => (Node.done, s)

/-- Fuel-bounded execution of the workflow graph: returns the final state when
END is reached within the fuel, none otherwise. -/
def runFrom (env : AgentEnv) : Nat → Node × AgentState → Option AgentState
  | 0, _ => none
  | n + 1, (node, s) =>
    if node = Node.done then some s
    else runFrom env n (stepWorkflow env (node, s))

/-- The initial_state dictionary built in AgentWorkflow.full_pipeline. -/
def initState (question : String) (docs : List Doc) : AgentState :=
  { question := question
    documents := docs
    draft_answer := ""
    verification_report := ""
    is_relevant := false
    researchCalls := 0
    verifyCalls := 0 }

/-- AgentWorkflow.full_pipeline: invokes the retriever once on the question,
builds the initial state with the retrieved documents, and runs the compiled
workflow.  The second component records the number of retriever.invoke calls
made by full_pipeline itself (the source performs exactly one). -/
def fullPipeline (env : AgentEnv) (retr : String → List Doc) (question : String)
    (fuel : Nat) : Option AgentState × Nat :=
  (runFrom env fuel (Node.checkRelevance, initState question (retr question)), 1)

-- ---------------------------------------------------------------------------
-- Hybrid retrieval fusion (src/query_processor.py, EnhancedHybridRetriever)
-- ---------------------------------------------------------------------------

/-- A retrieval source: returns none when the underlying call raises. -/
abbrev Retriever := String → Option (List Doc)

/-- Loop body of EnhancedHybridRetriever._retrieve_with_variant: query the
sources in order, skipping a source that raises, extending the accumulated
list, and stopping early once 5 or more documents have accumulated. -/
def retrieveLoop (q : String) : List Retriever → List Doc → List Doc
  | [], docs => docs
  | r :: rest, docs =>
    match r q with
    | none => retrieveLoop q rest docs
    | some results =>
      let docs2 := docs ++ results
      if 5 ≤ docs2.length then docs2 else retrieveLoop q rest docs2

/-- EnhancedHybridRetriever._retrieve_with_variant. -/
def retrieveWithVariant (retrievers : List Retriever) (q : String) : List Doc :=
  retrieveLoop q retrievers []

/-- The query_intent dictionary consumed by _get_relevant_documents. -/
structure QueryIntent where
  type : String
  original_topic : String
deriving DecidableEq

/-- The queries_to_try list built at the top of _get_relevant_documents. -/
def queriesToTry (intent : Option QueryIntent) (ctx : Option String)
    (query : String) : List String :=
  match intent with
  | none => [query]
  | some i =>
    if i.type = "follow_up_examples" ∧ ctx.isSome = true then
      [query, "examples of " ++ i.original_topic ++ " " ++ query]
    else if i.type = "follow_up_code" then
      [query, "code example " ++ query ++ " programming implementation"]
    else if i.type = "document_metadata" then
      ["table of contents chapters sections overview summary",
       "document structure",
       "topics covered"]
    else [query]

/-- The deduplication key used by _get_relevant_documents:
hash(doc.page_content[:300]), with hash modelled injectively — the key is the
string of the first 300 characters of page_content. -/
def dedupKey (d : Doc) : String :=
  String.mk (d.page_content.toList.take 300)

/-- The inner for loop of _get_relevant_documents: append each document whose
key is not yet in seen_content, recording its key. -/
def dedupAppend : List String → List Doc → List Doc → List String × List Doc
  | seen, acc, [] => (seen, acc)
  | seen, acc, d :: ds =>
    if dedupKey d ∈ seen then dedupAppend seen acc ds
    else dedupAppend (dedupKey d :: seen) (acc ++ [d]) ds

/-- The outer loop of _get_relevant_documents over the first two query
variants, stopping early once 8 or more documents have accumulated. -/
def fuseLoop (retrievers : List Retriever) :
    List String → List String → List Doc → List Doc
  | [], _, acc => acc
  | q :: qs, seen, acc =>
    let p := dedupAppend seen acc (retrieveWithVariant retrievers q)
    if 8 ≤ p.2.length then p.2 else fuseLoop retrievers qs p.1 p.2

/-- EnhancedHybridRetriever._get_relevant_documents. -/
def getRelevantDocuments (retrievers : List Retriever)
    (intent : Option QueryIntent) (ctx : Option String)
    (query : String) : List Doc :=
  (fuseLoop retrievers ((queriesToTry intent ctx query).take 2) [] []).take 8

/-- Spec-side fingerprint, written from the words of the specification (not
from the source): a fingerprint of normalized content plus sourceId,
case- and whitespace-insensitive.  Used to compare the code against the
claimed deduplication identity. -/
def normalizeText (s : String) : String :=
  String.mk ((s.toList.filter (fun c => !c.isWhitespace)).map Char.toLower)

/-- Spec-side fingerprint of a passage: normalized content joined with the
sourceId. -/
def specFingerprint (d : Doc) : String :=
  normalizeText d.page_content ++ "|" ++ d.source

-- ---------------------------------------------------------------------------
-- Draft generator (src/agents/research_agent.py, ResearchAgent)
-- ---------------------------------------------------------------------------

/-- ResearchAgent.sanitize_response: strip surrounding whitespace. -/
def sanitizeResponse (s : String) : String :=
  s.trim

/-- The dictionary returned by ResearchAgent.generate. -/
structure GenerateResult where
  draft_answer : String
  context_used : String
deriving DecidableEq

/-- The context string built by ResearchAgent.generate from the documents. -/
def joinDocs (documents : List Doc) : String :=
  String.intercalate "\n\n" (documents.map (fun d => d.page_content))

/-- ResearchAgent.generate.  The llm invocation is an external network call;
its outcome is passed in: Except.error models the invoke call raising, and
Except.ok content models a response whose content attribute equals content.
On a raise, generate re-raises a RuntimeError with the fixed message; on an
empty (falsy) content it substitutes the fixed inability answer; otherwise it
returns the sanitized content. -/
def generate (question : String) (documents : List Doc)
    (llmOutcome : Except Unit String) : Except String GenerateResult :=
  let context := joinDocs documents
  match llmOutcome with
  | Except.error _ => Except.error "Failed to generate answer due to a model error."
  | Except.ok content =>
    Except.ok
      { draft_answer :=
          if content = "" then "I cannot answer this question."
          else sanitizeResponse content
        context_used := context }

-- ---------------------------------------------------------------------------
-- Helper lemmas about the workflow step machine
-- ---------------------------------------------------------------------------

theorem runFrom_done (env : AgentEnv) (n : Nat) (s : AgentState) :
    runFrom env (n + 1) (Node.done, s) = some s := by
  simp [runFrom]

theorem runFrom_step (env : AgentEnv) (n : Nat) (node : Node) (s : AgentState)
    (h : node ≠ Node.done) :
    runFrom env (n + 1) (node, s) = runFrom env n (stepWorkflow env (node, s)) := by
  simp [runFrom, h]

theorem stepWorkflow_documents (env : AgentEnv) (p : Node × AgentState) :
    ((stepWorkflow env p).2).documents = (p.2).documents := by
  obtain ⟨node, s⟩ := p
  cases node with
  | checkRelevance =>
    show (checkRelevanceStep env s).documents = s.documents
    unfold checkRelevanceStep
    split <;> rfl
  | research => rfl
  | verify => rfl
  | done => rfl

theorem runFrom_preserves_documents (env : AgentEnv) :
    ∀ (n : Nat) (p : Node × AgentState) (s2 : AgentState),
      runFrom env n p = some s2 → s2.documents = (p.2).documents := by
  intro n
  induction n with
  | zero => intro p s2 h; simp [runFrom] at h
  | succ n ih =>
    intro p s2 h
    obtain ⟨node, s⟩ := p
    by_cases hd : node = Node.done
    · subst hd
      rw [runFrom_done] at h
      cases h
      rfl
    · rw [runFrom_step env n node s hd] at h
      have := ih _ _ h
      rw [this, stepWorkflow_documents]

/-- C2: if the relevance check classifies the question as NOT_RELEVANT, the
research and verification nodes are never executed and the run terminates
with the fixed fallback answer text. -/
theorem relevance_short_circuit (d rep : Nat → String) (q : String)
    (docs : List Doc) (fuel : Nat) :
    (runFrom ⟨"NOT_RELEVANT", d, rep⟩ (fuel + 2)
        (Node.checkRelevance, initState q docs)).map
      (fun s => (s.researchCalls, s.verifyCalls, s.draft_answer))
      = some (0, 0, fallbackText) := by
  have hstep : stepWorkflow ⟨"NOT_RELEVANT", d, rep⟩
      (Node.checkRelevance, initState q docs)
      = (Node.done, { initState q docs with
                        is_relevant := false, draft_answer := fallbackText }) := by
    simp [stepWorkflow, checkRelevanceStep, decideAfterRelevanceCheck]
  rw [runFrom_step _ _ _ _ (by simp), hstep, runFrom_done]
  rfl

/-- C9: the fused retrieval output contains at most 8 documents, for every
set of sources, every intent and every query. -/
theorem fused_output_at_most_eight (retrievers : List Retriever)
    (intent : Option QueryIntent) (ctx : Option String) (query : String) :
    (getRelevantDocuments retrievers intent ctx query).length ≤ 8 := by
  unfold getRelevantDocuments
  rw [List.length_take]
  exact Nat.min_le_left 8 _

/-- C10: ResearchAgent.generate substitutes the fixed inability answer when
the generation call succeeds with empty content, returns the stripped content
when it is non-empty, and propagates an error when the generation call
raises. -/
theorem generate_draft_cases (question : String) (documents : List Doc)
    (c : String) (h : c ≠ "") :
    generate question documents (Except.error ())
        = Except.error "Failed to generate answer due to a model error."
    ∧ generate question documents (Except.ok "")
        = Except.ok ⟨"I cannot answer this question.", joinDocs documents⟩
    ∧ generate question documents (Except.ok c)
        = Except.ok ⟨c.trim, joinDocs documents⟩ := by
  refine ⟨rfl, rfl, ?_⟩
  simp [generate, sanitizeResponse, h]

/-- Witness for C10 at a concrete whitespace-padded content string. -/
theorem generate_draft_cases_witness :
    ("  hi  " : String) ≠ ""
    ∧ (generate "q" [] (Except.error ())
        = Except.error "Failed to generate answer due to a model error."
      ∧ generate "q" [] (Except.ok "")
        = Except.ok ⟨"I cannot answer this question.", joinDocs []⟩
      ∧ generate "q" [] (Except.ok "  hi  ")
        = Except.ok ⟨"  hi  ".trim, joinDocs []⟩) :=
  ⟨by decide, generate_draft_cases "q" [] "  hi  " (by decide)⟩

-- ---------------------------------------------------------------------------
-- C1: behaviour under an always-failing verifier
-- ---------------------------------------------------------------------------

/-- Environment in which the question is relevant and the verifier always
reports Supported: NO. -/
def alwaysNoEnv (d : Nat → String) : AgentEnv :=
  ⟨"CAN_ANSWER", d, fun _ => "Supported: NO"⟩

theorem strContains_supNo_self :
    strContains "Supported: NO" "Supported: NO" = true := by decide

theorem step_notDone_alwaysNo (d : Nat → String) (node : Node) (s : AgentState)
    (h : node ≠ Node.done) :
    (stepWorkflow (alwaysNoEnv d) (node, s)).1 ≠ Node.done := by
  cases node with
  | checkRelevance =>
    simp [stepWorkflow, checkRelevanceStep, decideAfterRelevanceCheck, alwaysNoEnv]
  | research => simp [stepWorkflow]
  | verify =>
    simp [stepWorkflow, verificationStep, decideNextStep, alwaysNoEnv,
      strContains_supNo_self]
  | done => exact absurd rfl h

/-- C1: with a verifier that always reports Supported: NO on a relevant
question, the workflow never reaches END for any amount of fuel (the retry
edge has no iteration bound), and after 8 steps the research node has already
executed 4 times — the run neither stops after 3 draft generations nor
terminates at all. -/
theorem unbounded_retry_no_iteration_bound :
    (∀ (d : Nat → String) (q : String) (docs : List Doc) (fuel : Nat),
        runFrom (alwaysNoEnv d) fuel (Node.checkRelevance, initState q docs)
          = none)
    ∧ ((stepWorkflow (alwaysNoEnv (fun _ => "draft")))^[8]
        (Node.checkRelevance, initState "q" [])).2.researchCalls = 4 := by
  constructor
  · intro d q docs fuel
    have key : ∀ (n : Nat) (node : Node) (s : AgentState), node ≠ Node.done →
        runFrom (alwaysNoEnv d) n (node, s) = none := by
      intro n
      induction n with
      | zero => intro node s _; rfl
      | succ n ih =>
        intro node s h
        rw [runFrom_step _ _ _ _ h]
        have hnd := step_notDone_alwaysNo d node s h
        cases hstep : stepWorkflow (alwaysNoEnv d) (node, s) with
        | mk node2 s2 =>
          rw [hstep] at hnd
          exact ih node2 s2 hnd
    exact key fuel Node.checkRelevance (initState q docs) (by simp)
  · decide

-- ---------------------------------------------------------------------------
-- C8: handling of verification reports without parseable labels
-- ---------------------------------------------------------------------------

/-- C8 (amended): the orchestrator loops back to research exactly when the
report contains the substring Supported: NO or Relevant: NO; a report with
neither label — in particular an ambiguous, unparseable one — terminates the
run as verified after a single research and a single verification pass. -/
theorem report_without_no_labels_terminates (d : Nat → String) (r q : String)
    (docs : List Doc) (fuel : Nat)
    (h1 : strContains r "Supported: NO" = false)
    (h2 : strContains r "Relevant: NO" = false) :
    (runFrom ⟨"CAN_ANSWER", d, fun _ => r⟩ (fuel + 4)
        (Node.checkRelevance, initState q docs)).map
      (fun s => (s.researchCalls, s.verifyCalls, s.verification_report))
      = some (1, 1, r) := by
  set env : AgentEnv := ⟨"CAN_ANSWER", d, fun _ => r⟩ with henv
  have e1 : stepWorkflow env (Node.checkRelevance, initState q docs)
      = (Node.research, { initState q docs with is_relevant := true }) := by
    simp [stepWorkflow, checkRelevanceStep, decideAfterRelevanceCheck, henv]
  have e2 : stepWorkflow env
      (Node.research, { initState q docs with is_relevant := true })
      = (Node.verify,
          researchStep env { initState q docs with is_relevant := true }) := by
    simp [stepWorkflow]
  have e3 : stepWorkflow env
      (Node.verify, researchStep env { initState q docs with is_relevant := true })
      = (Node.done,
          verificationStep env
            (researchStep env { initState q docs with is_relevant := true })) := by
    simp [stepWorkflow, verificationStep, researchStep, decideNextStep,
      initState, henv, h1, h2]
  rw [show fuel + 4 = (fuel + 3) + 1 from rfl,
    runFrom_step _ _ _ _ (by simp), e1,
    show fuel + 3 = (fuel + 2) + 1 from rfl,
    runFrom_step _ _ _ _ (by simp), e2,
    show fuel + 2 = (fuel + 1) + 1 from rfl,
    runFrom_step _ _ _ _ (by simp), e3,
    runFrom_done]
  simp [verificationStep, researchStep, initState, henv]

/-- Witness for the amended C8 at the empty (fully ambiguous) report. -/
theorem report_without_no_labels_terminates_witness :
    strContains "" "Supported: NO" = false
    ∧ strContains "" "Relevant: NO" = false
    ∧ (runFrom ⟨"CAN_ANSWER", fun _ => "draft", fun _ => ""⟩ 4
        (Node.checkRelevance, initState "q" [])).map
      (fun s => (s.researchCalls, s.verifyCalls, s.verification_report))
      = some (1, 1, "") :=
  ⟨by decide, by decide,
    report_without_no_labels_terminates (fun _ => "draft") "" "q" [] 0
      (by decide) (by decide)⟩

/-- C8 (counterexample): an ambiguous verification report — here a rationale
with no Supported/Relevant labels at all — does not cause a retry: the run
terminates right after the first verification with the research node executed
exactly once, contradicting the claim that ambiguity maps to a retry. -/
theorem ambiguous_report_not_retried :
    (runFrom ⟨"CAN_ANSWER", fun _ => "some answer",
        fun _ => "the report is unclear"⟩ 6
        (Node.checkRelevance, initState "what is X" [⟨"body text", "doc1"⟩])).map
      (fun s => (s.researchCalls, s.verifyCalls))
      = some (1, 1) := by
  decide

-- ---------------------------------------------------------------------------
-- C5: where retrieval happens relative to the research step
-- ---------------------------------------------------------------------------

/-- Environment whose first verification fails and whose second succeeds. -/
def retryOnceEnv : AgentEnv :=
  ⟨"CAN_ANSWER",
    fun n => if n = 0 then "draft one" else "draft two",
    fun n => if n = 0 then "Supported: NO" else "Supported: YES"⟩

/-- Two fixed documents returned by the pipeline-entry retrieval. -/
def twoDocs : List Doc :=
  [⟨"alpha content", "srcA"⟩, ⟨"beta content", "srcB"⟩]

/-- C5 (counterexample): in a run whose first verification fails, the research
node executes twice but the retriever is invoked only once (at pipeline entry)
and the documents in the state stay the ones retrieved there — no retrieval
happens inside any research pass, contradicting the claim. -/
theorem research_pass_does_not_retrieve :
    ((fullPipeline retryOnceEnv (fun _ => twoDocs) "q" 10).1).map
        (fun s => (s.researchCalls, s.verifyCalls, s.documents))
      = some (2, 2, twoDocs)
    ∧ (fullPipeline retryOnceEnv (fun _ => twoDocs) "q" 10).2 = 1 := by
  constructor
  · decide
  · rfl

/-- C5 (amended): full_pipeline performs exactly one retriever invocation,
before the workflow starts, and whenever the workflow terminates the final
state still holds exactly the documents of that single retrieval — every
research pass (including retries) reuses them. -/
theorem pipeline_retrieves_once (env : AgentEnv) (retr : String → List Doc)
    (q : String) (fuel : Nat) (s : AgentState)
    (h : (fullPipeline env retr q fuel).1 = some s) :
    (fullPipeline env retr q fuel).2 = 1 ∧ s.documents = retr q := by
  refine ⟨rfl, ?_⟩
  have := runFrom_preserves_documents env fuel
    (Node.checkRelevance, initState q (retr q)) s h
  simpa [initState] using this

/-- Witness for the amended C5 on a concrete irrelevant-question run. -/
theorem pipeline_retrieves_once_witness :
    (fullPipeline ⟨"NOT_RELEVANT", fun _ => "", fun _ => ""⟩
        (fun _ => twoDocs) "q" 5).1
      = some { question := "q", documents := twoDocs,
               draft_answer := fallbackText, verification_report := "",
               is_relevant := false, researchCalls := 0, verifyCalls := 0 }
    ∧ ((fullPipeline ⟨"NOT_RELEVANT", fun _ => "", fun _ => ""⟩
          (fun _ => twoDocs) "q" 5).2 = 1
      ∧ ({ question := "q", documents := twoDocs,
           draft_answer := fallbackText, verification_report := "",
           is_relevant := false, researchCalls := 0,
           verifyCalls := 0 } : AgentState).documents = twoDocs) :=
  ⟨by decide,
    pipeline_retrieves_once ⟨"NOT_RELEVANT", fun _ => "", fun _ => ""⟩
      (fun _ => twoDocs) "q" 5 _ (by decide)⟩

-- ---------------------------------------------------------------------------
-- C6: whether every source is queried
-- ---------------------------------------------------------------------------

/-- Five documents returned by the first source. -/
def fiveDocs : List Doc :=
  [⟨"one", "s"⟩, ⟨"two", "s"⟩, ⟨"three", "s"⟩, ⟨"four", "s"⟩, ⟨"five", "s"⟩]

/-- A document only the second source can return. -/
def extraDoc : Doc := ⟨"extra", "s2"⟩

/-- C6 (counterexample): when the first source already returns 5 documents,
the second source is skipped — its document never appears in the output even
though the source succeeds, contradicting the claim that every supplied
source is queried independently. -/
theorem second_source_skipped :
    retrieveWithVariant [fun _ => some fiveDocs, fun _ => some [extraDoc]] "q"
      = fiveDocs
    ∧ extraDoc ∉
        retrieveWithVariant [fun _ => some fiveDocs, fun _ => some [extraDoc]]
          "q" := by
  decide

/-- Concatenation of the results of all non-raising sources, in order. -/
def successResults (retrievers : List Retriever) (q : String) : List Doc :=
  (retrievers.filterMap (fun r => r q)).flatten

theorem retrieveLoop_no_break (q : String) :
    ∀ (rs : List Retriever) (acc : List Doc),
      acc.length + (successResults rs q).length < 5 →
      retrieveLoop q rs acc = acc ++ successResults rs q := by
  intro rs
  induction rs with
  | nil => intro acc _; simp [retrieveLoop, successResults]
  | cons r rest ih =>
    intro acc h
    cases hr : r q with
    | none =>
      have hs : successResults (r :: rest) q = successResults rest q := by
        simp [successResults, List.filterMap_cons, hr]
      rw [hs] at h
      simp only [retrieveLoop, hr]
      rw [hs]
      exact ih acc h
    | some l =>
      have hs : successResults (r :: rest) q = l ++ successResults rest q := by
        simp [successResults, List.filterMap_cons, hr]
      rw [hs] at h
      simp only [retrieveLoop, hr]
      rw [List.length_append] at h
      have hlt : ¬ 5 ≤ (acc ++ l).length := by
        rw [List.length_append]
        omega
      rw [if_neg hlt]
      have := ih (acc ++ l) (by rw [List.length_append]; omega)
      rw [this, hs, List.append_assoc]

/-- C6 (amended): sources are queried in order with an accumulation budget —
a source is skipped exactly when earlier sources already produced 5 or more
results; in particular, whenever the successful sources together return fewer
than 5 passages, every source is queried and the output is the concatenation
of all their results. -/
theorem all_sources_queried_below_budget (retrievers : List Retriever)
    (q : String) (h : (successResults retrievers q).length < 5) :
    retrieveWithVariant retrievers q = successResults retrievers q := by
  have := retrieveLoop_no_break q retrievers [] (by simpa using h)
  simpa [retrieveWithVariant] using this

/-- Witness for the amended C6: two sources with 2 + 2 results, both
queried. -/
theorem all_sources_queried_below_budget_witness :
    (successResults
        [fun _ => some [⟨"wa", "s"⟩, ⟨"wb", "s"⟩],
         fun _ => some [⟨"wc", "s"⟩, ⟨"wd", "s"⟩]] "q").length < 5
    ∧ retrieveWithVariant
        [fun _ => some [⟨"wa", "s"⟩, ⟨"wb", "s"⟩],
         fun _ => some [⟨"wc", "s"⟩, ⟨"wd", "s"⟩]] "q"
      = successResults
          [fun _ => some [⟨"wa", "s"⟩, ⟨"wb", "s"⟩],
           fun _ => some [⟨"wc", "s"⟩, ⟨"wd", "s"⟩]] "q" :=
  ⟨by decide,
    all_sources_queried_below_budget
      [fun _ => some [⟨"wa", "s"⟩, ⟨"wb", "s"⟩],
       fun _ => some [⟨"wc", "s"⟩, ⟨"wd", "s"⟩]] "q" (by decide)⟩

-- ---------------------------------------------------------------------------
-- C7: partial-failure tolerance
-- ---------------------------------------------------------------------------

theorem fuseLoop_all_fail :
    ∀ (qs : List String) (seen : List String) (acc : List Doc),
      fuseLoop [fun _ => none, fun _ => none] qs seen acc = acc := by
  intro qs
  induction qs with
  | nil => intro seen acc; rfl
  | cons q qs ih =>
    intro seen acc
    simp only [fuseLoop, retrieveWithVariant, retrieveLoop, dedupAppend]
    split
    · rfl
    · exact ih seen acc

/-- C7: a raising source is skipped: with two sources of which one always
raises, the hybrid retrieval returns exactly the results of the other source
(hence non-empty whenever that source returns results), and when every source
raises the fused output is empty. -/
theorem partial_failure_tolerated (r : Retriever) (q : String)
    (intent : Option QueryIntent) (ctx : Option String) :
    retrieveWithVariant [fun _ => none, r] q = (r q).getD []
    ∧ retrieveWithVariant [r, fun _ => none] q = (r q).getD []
    ∧ retrieveWithVariant [fun _ => none, fun _ => none] q = []
    ∧ getRelevantDocuments [fun _ => none, fun _ => none] intent ctx q = [] := by
  refine ⟨?_, ?_, rfl, ?_⟩
  · cases hr : r q with
    | none => simp [retrieveWithVariant, retrieveLoop, hr]
    | some l =>
      simp only [retrieveWithVariant, retrieveLoop, hr, List.nil_append]
      split <;> rfl
  · cases hr : r q with
    | none => simp [retrieveWithVariant, retrieveLoop, hr]
    | some l =>
      simp only [retrieveWithVariant, retrieveLoop, hr, List.nil_append]
      split <;> rfl
  · unfold getRelevantDocuments
    rw [fuseLoop_all_fail]
    rfl

-- ---------------------------------------------------------------------------
-- C3: the actual deduplication identity of the fused output
-- ---------------------------------------------------------------------------

/-- Two passages from the same source whose contents differ only in case. -/
def lowerDoc : Doc := ⟨"abc", "s1"⟩

/-- Upper-case variant of lowerDoc, same source. -/
def upperDoc : Doc := ⟨"ABC", "s1"⟩

set_option maxRecDepth 4096 in
/-- C3 (counterexample): the fused output can contain two distinct passages
with the same normalized-content + sourceId fingerprint, because the code
deduplicates by the raw 300-character content prefix and ignores case and
sourceId — contradicting the claimed dedup identity. -/
theorem fused_output_duplicate_spec_fingerprint :
    getRelevantDocuments [fun _ => some [lowerDoc, upperDoc]] none none "q"
      = [lowerDoc, upperDoc]
    ∧ specFingerprint lowerDoc = specFingerprint upperDoc
    ∧ lowerDoc ≠ upperDoc := by
  decide

theorem dedupAppend_invariant :
    ∀ (ds : List Doc) (seen : List String) (acc : List Doc),
      (∀ d ∈ acc, dedupKey d ∈ seen) →
      acc.Pairwise (fun a b => dedupKey a ≠ dedupKey b) →
      (∀ d ∈ (dedupAppend seen acc ds).2, dedupKey d ∈ (dedupAppend seen acc ds).1)
      ∧ (dedupAppend seen acc ds).2.Pairwise (fun a b => dedupKey a ≠ dedupKey b) := by
  intro ds
  induction ds with
  | nil => intro seen acc h1 h2; exact ⟨h1, h2⟩
  | cons d ds ih =>
    intro seen acc h1 h2
    by_cases hd : dedupKey d ∈ seen
    · rw [dedupAppend, if_pos hd]
      exact ih seen acc h1 h2
    · rw [dedupAppend, if_neg hd]
      apply ih
      · intro x hx
        rcases List.mem_append.mp hx with hxa | hxd
        · exact List.mem_cons_of_mem _ (h1 x hxa)
        · rw [List.mem_singleton.mp hxd]
          exact List.mem_cons_self _ _
      · rw [List.pairwise_append]
        refine ⟨h2, List.pairwise_singleton _ _, ?_⟩
        intro a ha b hb
        rw [List.mem_singleton.mp hb]
        intro he
        exact hd (he ▸ h1 a ha)

theorem fuseLoop_pairwise (retrievers : List Retriever) :
    ∀ (qs : List String) (seen : List String) (acc : List Doc),
      (∀ d ∈ acc, dedupKey d ∈ seen) →
      acc.Pairwise (fun a b => dedupKey a ≠ dedupKey b) →
      (fuseLoop retrievers qs seen acc).Pairwise
        (fun a b => dedupKey a ≠ dedupKey b) := by
  intro qs
  induction qs with
  | nil => intro seen acc _ h2; exact h2
  | cons q qs ih =>
    intro seen acc h1 h2
    have h := dedupAppend_invariant (retrieveWithVariant retrievers q)
      seen acc h1 h2
    simp only [fuseLoop]
    split
    · exact h.2
    · exact ih _ _ h.1 h.2

/-- C3 (amended): no two passages of the fused output share the same
deduplication key, where the key is the raw first-300-character prefix of
page_content (exact comparison; sourceId, case and whitespace are not part of
the identity; the Python hash of the prefix is modelled injectively). -/
theorem fused_output_distinct_prefixes (retrievers : List Retriever)
    (intent : Option QueryIntent) (ctx : Option String) (query : String) :
    (getRelevantDocuments retrievers intent ctx query).Pairwise
      (fun a b => dedupKey a ≠ dedupKey b) := by
  have h := fuseLoop_pairwise retrievers
    ((queriesToTry intent ctx query).take 2) [] []
    (by intro d hd; exact absurd hd (List.not_mem_nil d)) (List.Pairwise.nil)
  exact h.sublist (List.take_sublist _ _)

-- ---------------------------------------------------------------------------
-- C4: fused scoring
-- ---------------------------------------------------------------------------

/-- A passage as the lexical source returns it. -/
def helloLex : Doc := ⟨"Hello World", "d1"⟩

/-- The matching passage as the semantic source returns it: same
normalized-content + sourceId fingerprint, different raw spelling. -/
def helloSem : Doc := ⟨"hello  world", "d1"⟩

set_option maxRecDepth 4096 in
/-- C4: evaluation of the fusion at two sources that return passages with the
same spec fingerprint.  The output contains both entries verbatim — no entry
is dropped in favour of a higher-scored one, no 0.5-weighted bonus is
combined, and no score of the form (1/(r+1)) * weight[s] is computed anywhere
(the fusion touches no score at all; the code comment itself defers scores to
production). -/
theorem fusion_assigns_no_scores :
    getRelevantDocuments
        [fun _ => some [helloLex], fun _ => some [helloSem]] none none "q"
      = [helloLex, helloSem]
    ∧ specFingerprint helloLex = specFingerprint helloSem := by
  decide

end Docubot
